import Mathlib

/-!
Verification of the HTI time-banded control harness (`hti_v0_demo` and
`hti_arm_demo`): the shared tick state, the band step functions, the Safety
Shield's precedence and clipping policy, the scheduler's decimation pattern,
the brain registry, and the 2-link arm kinematics
(`inverse_kinematics_2dof` / `forward_kinematics`).

Numeric conventions: Python floats are embedded as exact rationals (`ℚ`) in
the shield/band/scheduler layer, whose arithmetic (halving, comparison,
clipping) is exact, and as real numbers (`ℝ`) in the transcendental
kinematics layer.
-/

namespace HTI

/-- Observations are string-keyed numeric mappings (`dict[str, float]`),
embedded as association lists. -/
abbrev Obs := List (String × ℚ)

/-- Python `obs.get(key, default)`. -/
def dictGet (obs : Obs) (key : String) (dflt : ℚ) : ℚ :=
  (obs.lookup key).getD dflt

/-- `SemanticsAdvice` from `hti_v0_demo/shared_state.py`. -/
structure SemanticsAdvice where
  direction_hint : Int := 0
  confidence : ℚ := 0
deriving DecidableEq

/-- Reflex-flags record: the field set constructed by `ReflexBand.step`
(`hti_v0_demo/bands/reflex.py`, lines 65-71) and read back by
`SafetyShield.apply` (`hti_v0_demo/shield.py`).  The `ReflexFlags` dataclass
declaration in `hti_v0_demo/shared_state.py` declares only the first three
fields; that discrepancy is recorded by `reflexFlagsDataclassFields` and
`reflexStepConstructorKeywords` below. -/
structure ReflexFlags where
  near_boundary : Bool := false
  too_fast : Bool := false
  distance_to_boundary : ℚ := 0
  sensor_mismatch : Bool := false
  mismatch_magnitude : ℚ := 0
deriving DecidableEq

/-- Field names declared by the `ReflexFlags` dataclass in
`hti_v0_demo/shared_state.py` (lines 22-33), in declaration order. -/
def reflexFlagsDataclassFields : List String :=
  ["near_boundary", "too_fast", "distance_to_boundary"]

/-- Keyword arguments passed to the `ReflexFlags` constructor by
`ReflexBand.step` in `hti_v0_demo/bands/reflex.py` (lines 65-71). -/
def reflexStepConstructorKeywords : List String :=
  ["near_boundary", "too_fast", "distance_to_boundary",
   "sensor_mismatch", "mismatch_magnitude"]

/-- `SharedState` from `hti_v0_demo/shared_state.py`. -/
structure SharedState where
  t : ℚ := 0
  tick : Nat := 0
  obs : Obs := []
  action_proposed : Option ℚ := none
  action_final : Option ℚ := none
  semantics_advice : SemanticsAdvice := {}
  reflex_flags : ReflexFlags := {}
deriving DecidableEq

/-- The metadata dictionary attached to v0 event packs
(`hti_v0_demo/shield.py`): the five reflex-flag values. -/
structure EventMetadata where
  near_boundary : Bool
  too_fast : Bool
  distance_to_boundary : ℚ
  sensor_mismatch : Bool
  mismatch_magnitude : ℚ
deriving DecidableEq

/-- `EventPack` from `hti_v0_demo/event_log.py`. -/
structure EventPack where
  timestamp : ℚ
  tick : Nat
  band : String
  obs_before : Obs
  action_proposed : ℚ
  action_final : ℚ
  reason : String
  metadata : EventMetadata
deriving DecidableEq

/-- Metadata dictionary built by `SafetyShield.apply` from the current
reflex flags. -/
def flagsMetadata (f : ReflexFlags) : EventMetadata :=
  ⟨f.near_boundary, f.too_fast, f.distance_to_boundary,
   f.sensor_mismatch, f.mismatch_magnitude⟩

/-- `SafetyShield` from `hti_v0_demo/shield.py` (defaults `u_min = -0.05`,
`u_max = 0.05`). -/
structure SafetyShield where
  u_min : ℚ := -(5/100)
  u_max : ℚ := 5/100
deriving DecidableEq

/-- `SafetyShield.__init__` from `hti_v0_demo/shield.py` (lines 28-29):
raises `ValueError` when `u_min > u_max`. -/
def SafetyShield.init (u_min u_max : ℚ) : Except String SafetyShield :=
  if u_min > u_max then
    Except.error "u_min must be <= u_max"
  else
    Except.ok ⟨u_min, u_max⟩

/-- Intervention epsilon `1e-9` from `hti_v0_demo/shield.py`, line 101. -/
def interventionEps : ℚ := 1/1000000000

/-- Effective lower bound `u_min_effective` of `SafetyShield.apply`
(`hti_v0_demo/shield.py`, lines 83-90): halved in conservative mode. -/
def SafetyShield.effMin (sh : SafetyShield) (s : SharedState) : ℚ :=
  if s.reflex_flags.near_boundary then sh.u_min * (1/2) else sh.u_min

/-- Effective upper bound `u_max_effective` of `SafetyShield.apply`. -/
def SafetyShield.effMax (sh : SafetyShield) (s : SharedState) : ℚ :=
  if s.reflex_flags.near_boundary then sh.u_max * (1/2) else sh.u_max

/-- The `safe_action` value computed by `SafetyShield.apply`
(`hti_v0_demo/shield.py`, lines 56-94): `0.0` under the sensor-mismatch
override, otherwise the proposal clipped to the effective bounds, with an
absent proposal defaulting to `0.0` (line 53). -/
def SafetyShield.safeOf (sh : SafetyShield) (s : SharedState) : ℚ :=
  if s.reflex_flags.sensor_mismatch then 0
  else max (sh.effMin s) (min (sh.effMax s) (s.action_proposed.getD 0))

/-- The `reason` string selected by `SafetyShield.apply`
(`hti_v0_demo/shield.py`, lines 68, 87, 91). -/
def SafetyShield.reasonOf (s : SharedState) : String :=
  if s.reflex_flags.sensor_mismatch then "stop_sensor_mismatch"
  else if s.reflex_flags.near_boundary then "clip_near_boundary"
  else "clip_out_of_bounds"

/-- The optional event pack produced by `SafetyShield.apply`
(`hti_v0_demo/shield.py`, lines 61-76 and 100-117): always one under the
sensor-mismatch override, otherwise one exactly when the safe action
deviates from the proposal by more than `1e-9`. -/
def SafetyShield.eventOf (sh : SafetyShield) (s : SharedState) :
    Option EventPack :=
  if s.reflex_flags.sensor_mismatch
      ∨ |sh.safeOf s - s.action_proposed.getD 0| > interventionEps then
    some { timestamp := s.t, tick := s.tick, band := "SafetyShield",
           obs_before := s.obs, action_proposed := s.action_proposed.getD 0,
           action_final := sh.safeOf s, reason := SafetyShield.reasonOf s,
           metadata := flagsMetadata s.reflex_flags }
  else none

/-- `SafetyShield.apply` from `hti_v0_demo/shield.py` (lines 33-119):
returns the updated state together with the safe action and the optional
event pack (the Python method mutates `state.action_final` and returns the
pair).  Decomposed into `safeOf`/`reasonOf`/`eventOf`, which mirror the
method's local variables `safe_action`, `reason` and `event`. -/
def SafetyShield.apply (sh : SafetyShield) (s : SharedState) :
    SharedState × ℚ × Option EventPack :=
  ({ s with action_final := some (sh.safeOf s) }, sh.safeOf s, sh.eventOf s)

/-- `SemanticsBand.step` from `hti_v0_demo/bands/semantics.py`. -/
def semanticsStep (s : SharedState) : SharedState :=
  let x := dictGet s.obs "x" 0
  let x_target := dictGet s.obs "x_target" 0
  let error := x_target - x
  let hint_conf : Int × ℚ :=
    if |error| < 5/100 then (0, 9/10)
    else if error > 0 then (1, min (5/10 + |error|) 1)
    else (-1, min (5/10 + |error|) 1)
  { s with semantics_advice := ⟨hint_conf.1, hint_conf.2⟩ }

/-- `ControlBand.step` from `hti_v0_demo/bands/control.py` (default
`gain = 0.3`). -/
def controlStep (gain : ℚ) (s : SharedState) : SharedState :=
  let x := dictGet s.obs "x" 0
  let x_target := dictGet s.obs "x_target" 0
  let error := x_target - x
  let action := gain * error
  let action :=
    if s.semantics_advice.confidence > 7/10 then action
    else if s.semantics_advice.confidence < 3/10 then action * (1/2)
    else action
  { s with action_proposed := some action }

/-- `ReflexBand.step` from `hti_v0_demo/bands/reflex.py` (defaults
`boundary_margin = 0.1`, `speed_threshold = 0.08`,
`mismatch_threshold = 0.05`).  The whole `reflex_flags` record is replaced
by a freshly constructed one. -/
def reflexStep (boundary_margin speed_threshold mismatch_threshold : ℚ)
    (s : SharedState) : SharedState :=
  let x_true := dictGet s.obs "x_true" (dictGet s.obs "x" 0)
  let x_meas := dictGet s.obs "x_meas" (dictGet s.obs "x" 0)
  let action := s.action_proposed.getD 0
  let dist_to_lower := x_true - 0
  let dist_to_upper := 1 - x_true
  let distance_to_boundary := min dist_to_lower dist_to_upper
  let near_boundary := decide (distance_to_boundary < boundary_margin)
  let too_fast := decide (|action| > speed_threshold)
  let mismatch_magnitude := |x_true - x_meas|
  let sensor_mismatch := decide (mismatch_magnitude > mismatch_threshold)
  { s with reflex_flags :=
      ⟨near_boundary, too_fast, distance_to_boundary,
       sensor_mismatch, mismatch_magnitude⟩ }

/-- `ArmSemanticsAdvice` from `hti_arm_demo/shared_state.py`. -/
structure ArmSemanticsAdvice where
  stage_index : Int
  x_goal : ℚ
  y_goal : ℚ
  stage_complete : Bool := false
deriving DecidableEq

/-- `ArmReflexFlags` from `hti_arm_demo/shared_state.py`. -/
structure ArmReflexFlags where
  joint1_near_limit : Bool
  joint2_near_limit : Bool
  joint1_distance_to_limit : ℚ
  joint2_distance_to_limit : ℚ
  joints_too_fast : Bool
  near_obstacle : Bool
  obstacle_distance : Option ℚ := none
deriving DecidableEq

/-- Metadata attached to arm event packs (`hti_arm_demo/bands/shield.py`,
lines 98-102): keys `scaled`, `scale_factor` and `brain_name`. -/
structure ArmEventMetadata where
  scaled : Bool
  scale_factor : ℚ
  brain_name : String
deriving DecidableEq

/-- `ArmEventPack` from `hti_arm_demo/shared_state.py`. -/
structure ArmEventPack where
  timestamp : ℚ
  tick : Nat
  band : String
  obs_before : Obs
  action_proposed : ℚ × ℚ
  action_final : ℚ × ℚ
  reason : String
  metadata : ArmEventMetadata
deriving DecidableEq

/-- `ArmSharedState` from `hti_arm_demo/shared_state.py`. -/
structure ArmSharedState where
  tick : Nat := 0
  t : ℚ := 0
  obs : Obs := []
  semantics_advice : Option ArmSemanticsAdvice := none
  reflex_flags : Option ArmReflexFlags := none
  action_proposed : Option (ℚ × ℚ) := none
  action_final : Option (ℚ × ℚ) := none
  brain_name : String := "unknown"
  shield_interventions : Nat := 0
deriving DecidableEq

/-- `TAU_MAX` from `hti_arm_demo/env.py`. -/
def TAU_MAX : ℚ := 5

/-- `SafetyShield` dataclass from `hti_arm_demo/bands/shield.py`
(lines 23-33). -/
structure ArmSafetyShield where
  u_min : ℚ := -TAU_MAX
  u_max : ℚ := TAU_MAX
  near_limit_scale : ℚ := 1/2
deriving DecidableEq

/-- Construction of the arm-demo `SafetyShield`: the dataclass generates a
plain field-assigning constructor with no validation, so every parameter
combination is accepted. -/
def ArmSafetyShield.init (u_min u_max near_limit_scale : ℚ) :
    Except String ArmSafetyShield :=
  Except.ok ⟨u_min, u_max, near_limit_scale⟩

/-- `SafetyShield._clip` from `hti_arm_demo/bands/shield.py`. -/
def ArmSafetyShield.clip (sh : ArmSafetyShield) (value : ℚ) : ℚ :=
  max sh.u_min (min sh.u_max value)

/-- Torque scale factor computed by the arm shield from the reflex flags
(`hti_arm_demo/bands/shield.py`, lines 66-74). -/
def ArmSafetyShield.scaleOf (sh : ArmSafetyShield)
    (flags : Option ArmReflexFlags) : ℚ :=
  match flags with
  | none => 1
  | some f =>
    let scale : ℚ := 1
    let scale := if f.joint1_near_limit || f.joint2_near_limit
      then scale * sh.near_limit_scale else scale
    if f.joints_too_fast then scale * sh.near_limit_scale else scale

/-- The scaled-then-clipped torque pair written by the arm shield
(`hti_arm_demo/bands/shield.py`, lines 59-82). -/
def ArmSafetyShield.finalOf (sh : ArmSafetyShield) (s : ArmSharedState) :
    ℚ × ℚ :=
  let proposed := s.action_proposed.getD (0, 0)
  let scale := sh.scaleOf s.reflex_flags
  (sh.clip (proposed.1 * scale), sh.clip (proposed.2 * scale))

/-- The event pack logged by the arm shield on intervention
(`hti_arm_demo/bands/shield.py`, lines 90-103). -/
def ArmSafetyShield.packOf (sh : ArmSafetyShield) (s : ArmSharedState) :
    ArmEventPack :=
  { timestamp := s.t, tick := s.tick, band := "SafetyShield",
    obs_before := s.obs, action_proposed := s.action_proposed.getD (0, 0),
    action_final := sh.finalOf s, reason := "clip_or_scale",
    metadata := ⟨decide (sh.scaleOf s.reflex_flags ≠ 1),
                 sh.scaleOf s.reflex_flags, s.brain_name⟩ }

/-- `SafetyShield.apply` from `hti_arm_demo/bands/shield.py` (lines 39-104):
writes `action_final`, and on `final != proposed` increments the
intervention counter and appends one event pack to the event list. -/
def ArmSafetyShield.apply (sh : ArmSafetyShield) (s : ArmSharedState)
    (events : List ArmEventPack) : ArmSharedState × List ArmEventPack :=
  let proposed := s.action_proposed.getD (0, 0)
  let final := sh.finalOf s
  let s1 := { s with action_final := some final }
  if final ≠ proposed then
    ({ s1 with shield_interventions := s1.shield_interventions + 1 },
      events ++ [sh.packOf s])
  else (s1, events)

/-- Brain classes registered in `hti_arm_demo/brains/registry.py`. -/
inductive ArmBrainKind where
  | p
  | aggressive
  | pd
  | pd_aggressive
  | imperfect
  | optimal
deriving DecidableEq

/-- `BRAIN_REGISTRY` from `hti_arm_demo/brains/registry.py`. -/
def BRAIN_REGISTRY : List (String × ArmBrainKind) :=
  [("p", .p), ("aggressive", .aggressive), ("pd", .pd),
   ("pd_aggressive", .pd_aggressive), ("imperfect", .imperfect),
   ("optimal", .optimal)]

/-- Registry key list. -/
def brainNames : List String := BRAIN_REGISTRY.map Prod.fst

/-- `create_arm_brain` from `hti_arm_demo/brains/registry.py` (lines 29-59):
raises `ValueError` for names not present in the registry, otherwise selects
the registered class. -/
def create_arm_brain (brain_name : String) : Except String ArmBrainKind :=
  match BRAIN_REGISTRY.lookup brain_name with
  | some k => Except.ok k
  | none => Except.error ("Unknown brain: " ++ brain_name)

/-- One scheduler-visible occurrence inside a tick. -/
inductive BandEvent where
  | semantics
  | control
  | reflex
  | shield
  | envStep
deriving DecidableEq

/-- The per-tick execution sequence of `run_episode`
(`hti_v0_demo/scheduler.py` lines 86-118; identical structure in
`hti_arm_demo/scheduler.py` lines 79-100): Semantics when
`tick % 10 == 0`, Control when `tick % 2 == 0`, then always Reflex, then
the Shield, then the environment step. -/
def tickEvents (tick : Nat) : List BandEvent :=
  (if tick % 10 = 0 then [BandEvent.semantics] else []) ++
    (if tick % 2 = 0 then [BandEvent.control] else []) ++
    [BandEvent.reflex, BandEvent.shield, BandEvent.envStep]

/-- Execution trace of the scheduler loop starting at `tick` with `fuel`
iterations of budget left; `done t` is the environment's termination signal
observed after the environment step of tick `t` (the loop completes that
tick and then breaks). -/
def episodeTraceFrom (done : Nat → Bool) : Nat → Nat → List (Nat × BandEvent)
  | _, 0 => []
  | tick, fuel + 1 =>
    let evts := (tickEvents tick).map (fun e => (tick, e))
    if done tick then evts
    else evts ++ episodeTraceFrom done (tick + 1) fuel

/-- Execution trace of `run_episode` over at most `max_ticks` ticks. -/
def episodeTrace (max_ticks : Nat) (done : Nat → Bool) :
    List (Nat × BandEvent) :=
  episodeTraceFrom done 0 max_ticks

/-- Guard threshold `1e-6` from `inverse_kinematics_2dof`. -/
noncomputable def ikGuardEps : ℝ := 1/1000000

/-- Python `math.atan2 y x` in exact real arithmetic: the principal argument
of the complex number `x + y*i` (range `(-π, π]`, with `atan2 0 0 = 0`). -/
noncomputable def atan2 (y x : ℝ) : ℝ := Complex.arg ⟨x, y⟩

/-- Goal-normalization stage of `inverse_kinematics_2dof`
(`hti_arm_demo/brains/arm_pd_controller.py`, lines 47-69): the effective
goal coordinates and effective distance `r` after rescaling unreachable or
too-close targets, with the near-zero-distance division guard. -/
noncomputable def ik_normalize (x_goal y_goal L1 L2 : ℝ) : ℝ × ℝ × ℝ :=
  let r := Real.sqrt (x_goal ^ 2 + y_goal ^ 2)
  let max_reach := L1 + L2
  let min_reach := |L1 - L2|
  if r > max_reach then
    let scale := max_reach / r
    (x_goal * scale, y_goal * scale, max_reach)
  else if r < min_reach then
    let scale := if r > ikGuardEps then min_reach / r else 1
    (x_goal * scale, y_goal * scale, min_reach)
  else
    (x_goal, y_goal, r)

/-- Clamped law-of-cosines argument for the elbow angle
(`arm_pd_controller.py`, lines 73-74). -/
noncomputable def ik_elbow_cos (r L1 L2 : ℝ) : ℝ :=
  max (-1) (min 1 ((r ^ 2 - L1 ^ 2 - L2 ^ 2) / (2 * L1 * L2)))

/-- Angle stage of `inverse_kinematics_2dof` (`arm_pd_controller.py`,
lines 71-85), applied to the normalized goal. -/
noncomputable def ik_angles (x_goal y_goal r L1 L2 : ℝ) : ℝ × ℝ :=
  let theta2 := Real.arccos (ik_elbow_cos r L1 L2)
  let alpha := atan2 y_goal x_goal
  let beta := atan2 (L2 * Real.sin theta2) (L1 + L2 * Real.cos theta2)
  (alpha - beta, theta2)

/-- `inverse_kinematics_2dof` from `hti_arm_demo/brains/arm_pd_controller.py`
(lines 22-85). -/
noncomputable def inverse_kinematics_2dof (x_goal y_goal L1 L2 : ℝ) : ℝ × ℝ :=
  let n := ik_normalize x_goal y_goal L1 L2
  ik_angles n.1 n.2.1 n.2.2 L1 L2

/-- `forward_kinematics` from `hti_arm_demo/env.py` (lines 57-70); the
module fixes `L1 = 0.6` and `L2 = 0.4`, taken here as parameters. -/
noncomputable def forward_kinematics (L1 L2 theta1 theta2 : ℝ) : ℝ × ℝ :=
  (L1 * Real.cos theta1 + L2 * Real.cos (theta1 + theta2),
   L1 * Real.sin theta1 + L2 * Real.sin (theta1 + theta2))

/-- Scenario shield with the default bound `[-0.05, 0.05]`. -/
def scenarioShield : SafetyShield := ⟨-(5/100), 5/100⟩

/-- Scenario A state: proposal `+10.0`, no hazard flags. -/
def scenarioStateA : SharedState := { action_proposed := some 10 }

/-- Scenario B state: proposal `+10.0` with the near-limit flag set. -/
def scenarioStateB : SharedState :=
  { action_proposed := some 10, reflex_flags := { near_boundary := true } }

/-- A constructible v0 shield whose bound interval excludes the neutral
action: `u_min = 0.01 > 0`. -/
def strictShield : SafetyShield := ⟨1/100, 5/100⟩

/-- State with the sensor-mismatch flag raised and an in-bounds proposal. -/
def mismatchState : SharedState :=
  { action_proposed := some (3/100), reflex_flags := { sensor_mismatch := true } }

/-- State with both the sensor-mismatch and near-limit flags raised and
proposal `0.0`. -/
def mismatchZeroState : SharedState :=
  { action_proposed := some 0,
    reflex_flags := { near_boundary := true, sensor_mismatch := true } }

/-! Helper lemmas about the component decompositions of the two shields and
the scheduler trace. -/

lemma SafetyShield.apply_parts (sh : SafetyShield) (s : SharedState) :
    sh.apply s = ({ s with action_final := some (sh.safeOf s) },
      sh.safeOf s, sh.eventOf s) := rfl

lemma SafetyShield.safeOf_bounds (sh : SafetyShield) (s : SharedState)
    (h0 : sh.u_min ≤ 0) (h1 : 0 ≤ sh.u_max) :
    sh.u_min ≤ sh.safeOf s ∧ sh.safeOf s ≤ sh.u_max := by
  unfold SafetyShield.safeOf SafetyShield.effMin SafetyShield.effMax
  split_ifs with hsm hnb
  · exact ⟨h0, h1⟩
  · refine ⟨le_trans (by linarith) (le_max_left _ _),
      max_le (by linarith) ((min_le_left _ _).trans (by linarith))⟩
  · exact ⟨le_max_left _ _, max_le (h0.trans h1) (min_le_left _ _)⟩

lemma ArmSafetyShield.apply_action_final (sh : ArmSafetyShield)
    (s : ArmSharedState) (evs : List ArmEventPack) :
    (sh.apply s evs).1.action_final = some (sh.finalOf s) := by
  simp only [ArmSafetyShield.apply]
  split <;> rfl

lemma ArmSafetyShield.apply_events (sh : ArmSafetyShield)
    (s : ArmSharedState) (evs : List ArmEventPack) :
    (sh.apply s evs).2 =
      if sh.finalOf s ≠ s.action_proposed.getD (0, 0)
        then evs ++ [sh.packOf s] else evs := by
  simp only [ArmSafetyShield.apply]
  split <;> rfl

lemma ArmSafetyShield.finalOf_bounds (sh : ArmSafetyShield)
    (s : ArmSharedState) (h0 : sh.u_min ≤ 0) (h1 : 0 ≤ sh.u_max) :
    sh.u_min ≤ (sh.finalOf s).1 ∧ (sh.finalOf s).1 ≤ sh.u_max ∧
      sh.u_min ≤ (sh.finalOf s).2 ∧ (sh.finalOf s).2 ≤ sh.u_max := by
  unfold ArmSafetyShield.finalOf ArmSafetyShield.clip
  exact ⟨le_max_left _ _, max_le (h0.trans h1) (min_le_left _ _),
    le_max_left _ _, max_le (h0.trans h1) (min_le_left _ _)⟩

lemma episodeTraceFrom_of_no_done (done : Nat → Bool)
    (h : ∀ t, done t = false) :
    ∀ (fuel start : Nat), episodeTraceFrom done start fuel
      = (List.range' start fuel).flatMap
          (fun t => (tickEvents t).map (fun e => (t, e))) := by
  intro fuel
  induction fuel with
  | zero => intro start; rfl
  | succ n ih =>
    intro start
    rw [episodeTraceFrom, List.range'_succ, List.flatMap_cons]
    simp [h start, ih (start + 1)]

lemma episodeTrace_of_no_done (N : Nat) (done : Nat → Bool)
    (h : ∀ t, done t = false) :
    episodeTrace N done
      = (List.range N).flatMap
          (fun t => (tickEvents t).map (fun e => (t, e))) := by
  rw [episodeTrace, episodeTraceFrom_of_no_done done h N 0,
    List.range_eq_range']

lemma mem_episodeTrace (N : Nat) (done : Nat → Bool)
    (h : ∀ t, done t = false) (t : Nat) (e : BandEvent) :
    (t, e) ∈ episodeTrace N done ↔ t < N ∧ e ∈ tickEvents t := by
  rw [episodeTrace_of_no_done N done h]
  simp only [List.mem_flatMap, List.mem_map, List.mem_range]
  constructor
  · rintro ⟨u, hu, a, ha, heq⟩
    cases heq
    exact ⟨hu, ha⟩
  · rintro ⟨ht, he⟩
    exact ⟨t, ht, e, he, rfl⟩

lemma mem_tickEvents_semantics (t : Nat) :
    BandEvent.semantics ∈ tickEvents t ↔ t % 10 = 0 := by
  unfold tickEvents
  by_cases h10 : t % 10 = 0 <;> by_cases h2 : t % 2 = 0 <;> simp [h10, h2]

lemma mem_tickEvents_control (t : Nat) :
    BandEvent.control ∈ tickEvents t ↔ t % 2 = 0 := by
  unfold tickEvents
  by_cases h10 : t % 10 = 0 <;> by_cases h2 : t % 2 = 0 <;> simp [h10, h2]

lemma mem_tickEvents_reflex (t : Nat) : BandEvent.reflex ∈ tickEvents t := by
  unfold tickEvents
  by_cases h10 : t % 10 = 0 <;> by_cases h2 : t % 2 = 0 <;> simp [h10, h2]

lemma mem_tickEvents_shield (t : Nat) : BandEvent.shield ∈ tickEvents t := by
  unfold tickEvents
  by_cases h10 : t % 10 = 0 <;> by_cases h2 : t % 2 = 0 <;> simp [h10, h2]

lemma registry_lookup_characterization (name : String) :
    ((∃ msg, create_arm_brain name = Except.error msg) ↔ name ∉ brainNames)
      ∧ ((∃ k, create_arm_brain name = Except.ok k) ↔ name ∈ brainNames) := by
  unfold create_arm_brain brainNames BRAIN_REGISTRY
  by_cases h1 : name = "p"
  · subst h1; simp [List.lookup]
  · by_cases h2 : name = "aggressive"
    · subst h2; simp [List.lookup]
    · by_cases h3 : name = "pd"
      · subst h3; simp [List.lookup]
      · by_cases h4 : name = "pd_aggressive"
        · subst h4; simp [List.lookup]
        · by_cases h5 : name = "imperfect"
          · subst h5; simp [List.lookup]
          · by_cases h6 : name = "optimal"
            · subst h6; simp [List.lookup]
            · have e1 : (name == "p") = false := beq_eq_false_iff_ne.mpr h1
              have e2 : (name == "aggressive") = false :=
                beq_eq_false_iff_ne.mpr h2
              have e3 : (name == "pd") = false := beq_eq_false_iff_ne.mpr h3
              have e4 : (name == "pd_aggressive") = false :=
                beq_eq_false_iff_ne.mpr h4
              have e5 : (name == "imperfect") = false :=
                beq_eq_false_iff_ne.mpr h5
              have e6 : (name == "optimal") = false :=
                beq_eq_false_iff_ne.mpr h6
              simp [List.lookup, e1, e2, e3, e4, e5, e6, h1, h2, h3, h4, h5, h6]

lemma shield_init_characterization (u_min u_max : ℚ) :
    ((∃ sh, SafetyShield.init u_min u_max = Except.ok sh) ↔ u_min ≤ u_max)
      ∧ ((∃ msg, SafetyShield.init u_min u_max = Except.error msg)
          ↔ u_min > u_max) := by
  unfold SafetyShield.init
  split_ifs with h
  · refine ⟨⟨?_, ?_⟩, ⟨?_, ?_⟩⟩
    · rintro ⟨sh, hsh⟩; exact hsh.elim
    · intro hle; exact absurd h (not_lt.mpr hle)
    · intro _; exact h
    · intro _; exact ⟨_, rfl⟩
  · refine ⟨⟨?_, ?_⟩, ⟨?_, ?_⟩⟩
    · intro _; exact not_lt.mp h
    · intro _; exact ⟨_, rfl⟩
    · rintro ⟨msg, hmsg⟩; exact hmsg.elim
    · intro hgt; exact absurd hgt h

/-- Claim C1, counterexample: the bound invariant fails as stated.  The v0
shield with the constructible configuration `u_min = 0.01`, `u_max = 0.05`
(accepted by `SafetyShield.__init__` since `u_min <= u_max`) writes
`action_final = 0.0` under the sensor-mismatch override, and `0.0` lies
outside `[0.01, 0.05]`. -/
theorem shield_bound_invariant_counterexample :
    SafetyShield.init (1/100) (5/100) = Except.ok strictShield
      ∧ mismatchState.reflex_flags.sensor_mismatch = true
      ∧ (strictShield.apply mismatchState).2.1 = 0
      ∧ (strictShield.apply mismatchState).1.action_final = some 0
      ∧ ¬ (strictShield.u_min ≤ (strictShield.apply mismatchState).2.1) := by
  refine ⟨?_, rfl, ?_, ?_, ?_⟩
  · simp only [SafetyShield.init, strictShield]
    norm_num
  · simp [SafetyShield.apply, SafetyShield.safeOf, mismatchState]
  · simp [SafetyShield.apply, SafetyShield.safeOf, mismatchState]
  · simp only [SafetyShield.apply, SafetyShield.safeOf, mismatchState,
      strictShield]
    norm_num

/-- Claim C1 (amended): provided the configured interval contains the
neutral action (`u_min ≤ 0 ≤ u_max`), for every shared state — every
proposal including out-of-range and absent ones, and every reflex-flag
combination — the action written by either shield variant lies within
`[u_min, u_max]`, and an absent proposal is treated exactly like the
neutral zero action. -/
theorem shield_bound_invariant (sh : SafetyShield) (ash : ArmSafetyShield)
    (s : SharedState) (as0 : ArmSharedState) (evs : List ArmEventPack)
    (h0 : sh.u_min ≤ 0) (h1 : 0 ≤ sh.u_max)
    (ha0 : ash.u_min ≤ 0) (ha1 : 0 ≤ ash.u_max) :
    (sh.u_min ≤ (sh.apply s).2.1 ∧ (sh.apply s).2.1 ≤ sh.u_max)
      ∧ (sh.apply s).1.action_final = some ((sh.apply s).2.1)
      ∧ (sh.apply { s with action_proposed := none }).2
          = (sh.apply { s with action_proposed := some 0 }).2
      ∧ (∀ v, (ash.apply as0 evs).1.action_final = some v →
          ash.u_min ≤ v.1 ∧ v.1 ≤ ash.u_max
            ∧ ash.u_min ≤ v.2 ∧ v.2 ≤ ash.u_max)
      ∧ (ash.apply { as0 with action_proposed := none } evs).1.action_final
          = (ash.apply
              { as0 with action_proposed := some (0, 0) } evs).1.action_final := by
  refine ⟨sh.safeOf_bounds s h0 h1, rfl, rfl, ?_, ?_⟩
  · intro v hv
    rw [ash.apply_action_final as0 evs] at hv
    cases hv
    exact ash.finalOf_bounds as0 ha0 ha1
  · rw [ash.apply_action_final, ash.apply_action_final]
    rfl

/-- Claim C1, witness: the amended bound invariant applied to the default
`[-0.05, 0.05]` shields with a wildly out-of-range proposal. -/
theorem shield_bound_invariant_witness :
    scenarioShield.u_min ≤ 0 ∧ (0:ℚ) ≤ scenarioShield.u_max
      ∧ (scenarioShield.u_min ≤ (scenarioShield.apply scenarioStateA).2.1
          ∧ (scenarioShield.apply scenarioStateA).2.1 ≤ scenarioShield.u_max) :=
  ⟨by norm_num [scenarioShield], by norm_num [scenarioShield],
    (shield_bound_invariant scenarioShield ⟨-5, 5, 1/2⟩ scenarioStateA {} []
      (by norm_num [scenarioShield]) (by norm_num [scenarioShield])
      (by norm_num) (by norm_num)).1⟩

/-- Claim C2 (confirmed): the v0 shield returns an event pack exactly when
the sensor-mismatch override fired or the final action deviates from the
(defaulted) proposal by more than `1e-9`, so under the override one pack is
emitted even when final equals proposal; the arm shield appends exactly one
pack exactly when the final action differs from the proposal (its epsilon is
zero), and otherwise leaves the event list unchanged. -/
theorem shield_event_emission (sh : SafetyShield) (s : SharedState)
    (ash : ArmSafetyShield) (as0 : ArmSharedState) (evs : List ArmEventPack) :
    (((sh.apply s).2.2).isSome
        ↔ (s.reflex_flags.sensor_mismatch = true
            ∨ |(sh.apply s).2.1 - s.action_proposed.getD 0| > interventionEps))
      ∧ (s.reflex_flags.sensor_mismatch = false →
          (((sh.apply s).2.2).isSome
            ↔ |(sh.apply s).2.1 - s.action_proposed.getD 0| > interventionEps))
      ∧ (ash.apply as0 evs).2
          = (if ash.finalOf as0 ≠ as0.action_proposed.getD (0, 0)
              then evs ++ [ash.packOf as0] else evs)
      ∧ (ash.apply as0 evs).2.length
          = evs.length + (if ash.finalOf as0 ≠ as0.action_proposed.getD (0, 0)
              then 1 else 0) := by
  have hv0 : (sh.eventOf s).isSome
      ↔ (s.reflex_flags.sensor_mismatch = true
          ∨ |sh.safeOf s - s.action_proposed.getD 0| > interventionEps) := by
    unfold SafetyShield.eventOf
    split_ifs with h <;> simp_all
  refine ⟨hv0, ?_, ash.apply_events as0 evs, ?_⟩
  · intro hns
    show (sh.eventOf s).isSome
      ↔ |sh.safeOf s - s.action_proposed.getD 0| > interventionEps
    rw [hv0, hns]
    simp
  · rw [ash.apply_events as0 evs]
    split <;> simp

/-- Claim C3 (confirmed): whenever the sensor-mismatch flag is set — in
particular together with the near-limit flag — the v0 shield writes the
neutral action `0.0` and emits an event pack whose reason is
`stop_sensor_mismatch`, regardless of the proposal. -/
theorem shield_mismatch_precedence (sh : SafetyShield) (s : SharedState)
    (h : s.reflex_flags.sensor_mismatch = true) :
    (sh.apply s).2.1 = 0 ∧ (sh.apply s).1.action_final = some 0
      ∧ Option.map EventPack.reason ((sh.apply s).2.2)
          = some "stop_sensor_mismatch" := by
  refine ⟨?_, ?_, ?_⟩ <;>
    simp [SafetyShield.apply, SafetyShield.safeOf, SafetyShield.eventOf,
      SafetyShield.reasonOf, h]

/-- Claim C3, witness: both hazard flags set and proposal `0.0` — the final
action is `0.0` and one `stop_sensor_mismatch` event pack is still
emitted. -/
theorem shield_mismatch_precedence_witness :
    mismatchZeroState.reflex_flags.sensor_mismatch = true
      ∧ mismatchZeroState.reflex_flags.near_boundary = true
      ∧ mismatchZeroState.action_proposed = some 0
      ∧ ((scenarioShield.apply mismatchZeroState).2.1 = 0
          ∧ (scenarioShield.apply mismatchZeroState).1.action_final = some 0
          ∧ Option.map EventPack.reason
              ((scenarioShield.apply mismatchZeroState).2.2)
            = some "stop_sensor_mismatch") :=
  ⟨rfl, rfl, rfl, shield_mismatch_precedence scenarioShield mismatchZeroState rfl⟩

/-- Claim C4 (confirmed): over an episode in which the environment never
signals completion, the scheduler trace is exactly the concatenation of the
per-tick sequences; Semantics executes exactly on the ticks divisible by 10,
Control exactly on the ticks divisible by 2, Reflex and the Shield on every
tick, and within every tick the trailing execution order is Reflex, then
Shield, then the environment step — so the Shield is the last writer before
the environment is stepped. -/
theorem scheduler_decimation (N : Nat) (done : Nat → Bool)
    (h : ∀ t, done t = false) :
    episodeTrace N done
        = (List.range N).flatMap
            (fun t => (tickEvents t).map (fun e => (t, e)))
      ∧ (∀ t, (t, BandEvent.semantics) ∈ episodeTrace N done
          ↔ t < N ∧ t % 10 = 0)
      ∧ (∀ t, (t, BandEvent.control) ∈ episodeTrace N done
          ↔ t < N ∧ t % 2 = 0)
      ∧ (∀ t, (t, BandEvent.reflex) ∈ episodeTrace N done ↔ t < N)
      ∧ (∀ t, (t, BandEvent.shield) ∈ episodeTrace N done ↔ t < N)
      ∧ (∀ t, ∃ pre, tickEvents t = pre
          ++ [BandEvent.reflex, BandEvent.shield, BandEvent.envStep]) := by
  refine ⟨episodeTrace_of_no_done N done h, ?_, ?_, ?_, ?_, ?_⟩
  · intro t
    rw [mem_episodeTrace N done h, mem_tickEvents_semantics]
  · intro t
    rw [mem_episodeTrace N done h, mem_tickEvents_control]
  · intro t
    rw [mem_episodeTrace N done h]
    simp [mem_tickEvents_reflex]
  · intro t
    rw [mem_episodeTrace N done h]
    simp [mem_tickEvents_shield]
  · intro t
    refine ⟨(if t % 10 = 0 then [BandEvent.semantics] else []) ++
      (if t % 2 = 0 then [BandEvent.control] else []), ?_⟩
    rw [tickEvents, List.append_assoc]

/-- Claim C4, witness: a 20-tick episode with the environment never done —
Semantics fires at tick 10 but not at tick 5, Control fires at tick 6, and
the Shield fires at every tick below 20. -/
theorem scheduler_decimation_witness :
    (10, BandEvent.semantics) ∈ episodeTrace 20 (fun _ => false)
      ∧ ¬ ((5, BandEvent.semantics) ∈ episodeTrace 20 (fun _ => false))
      ∧ (6, BandEvent.control) ∈ episodeTrace 20 (fun _ => false)
      ∧ (19, BandEvent.shield) ∈ episodeTrace 20 (fun _ => false) := by
  have h := scheduler_decimation 20 (fun _ => false) (fun _ => rfl)
  refine ⟨(h.2.1 10).mpr (by norm_num), ?_,
    (h.2.2.1 6).mpr (by norm_num), (h.2.2.2.2.1 19).mpr (by norm_num)⟩
  intro hm
  have := (h.2.1 5).mp hm
  omega

/-- Claim C5 (code bug): `ReflexBand.step` computes exactly the claimed
record — a full replacement whose sensor-mismatch boolean is
`|x_true - x_meas| > threshold` and whose magnitude is `|x_true - x_meas|` —
but it passes the keyword arguments `sensor_mismatch` and
`mismatch_magnitude` to the `ReflexFlags` constructor even though the
dataclass in `shared_state.py` declares neither field, so the call raises
`TypeError` at runtime. -/
theorem reflex_flags_dataclass_mismatch :
    ("sensor_mismatch" ∈ reflexStepConstructorKeywords
        ∧ "sensor_mismatch" ∉ reflexFlagsDataclassFields
        ∧ "mismatch_magnitude" ∈ reflexStepConstructorKeywords
        ∧ "mismatch_magnitude" ∉ reflexFlagsDataclassFields)
      ∧ (∀ bm st mt : ℚ, ∀ s : SharedState, ∀ f0 : ReflexFlags,
          (reflexStep bm st mt { s with reflex_flags := f0 }).reflex_flags
            = (reflexStep bm st mt s).reflex_flags)
      ∧ (∀ bm st mt : ℚ, ∀ s : SharedState,
          (reflexStep bm st mt s).reflex_flags.sensor_mismatch
              = decide (|dictGet s.obs "x_true" (dictGet s.obs "x" 0)
                  - dictGet s.obs "x_meas" (dictGet s.obs "x" 0)| > mt)
            ∧ (reflexStep bm st mt s).reflex_flags.mismatch_magnitude
              = |dictGet s.obs "x_true" (dictGet s.obs "x" 0)
                  - dictGet s.obs "x_meas" (dictGet s.obs "x" 0)|) := by
  refine ⟨by decide, fun bm st mt s f0 => rfl, fun bm st mt s => ⟨rfl, rfl⟩⟩

/-- Claim C6, counterexample: the arm-demo `SafetyShield` is a plain
dataclass with no construction-time validation, so building it with
`u_min = 1 > -1 = u_max` succeeds instead of raising an error. -/
theorem shield_construction_counterexample :
    ArmSafetyShield.init 1 (-1) (1/2) = Except.ok ⟨1, -1, 1/2⟩
      ∧ ¬ ((1:ℚ) ≤ -1) :=
  ⟨rfl, by norm_num⟩

/-- Claim C6 (amended): configuration errors fail fast in the v0 shield —
construction succeeds exactly when `u_min ≤ u_max` and raises exactly when
`u_min > u_max` — and in brain selection, which errors exactly for names
outside the registry; the arm-demo shield variant, however, performs no
construction-time bound validation and accepts every parameter
combination. -/
theorem config_fail_fast (u_min u_max : ℚ) (name : String) :
    ((∃ sh, SafetyShield.init u_min u_max = Except.ok sh) ↔ u_min ≤ u_max)
      ∧ ((∃ msg, SafetyShield.init u_min u_max = Except.error msg)
          ↔ u_min > u_max)
      ∧ ((∃ msg, create_arm_brain name = Except.error msg)
          ↔ name ∉ brainNames)
      ∧ ((∃ k, create_arm_brain name = Except.ok k) ↔ name ∈ brainNames)
      ∧ (∀ scale, ArmSafetyShield.init u_min u_max scale
          = Except.ok ⟨u_min, u_max, scale⟩) :=
  ⟨(shield_init_characterization u_min u_max).1,
    (shield_init_characterization u_min u_max).2,
    (registry_lookup_characterization name).1,
    (registry_lookup_characterization name).2,
    fun _ => rfl⟩


/-- Claim C7 (confirmed): on the single-DOF v0 shield with bound
`[-0.05, 0.05]` and proposal `+10.0`, no hazard flags give final action
`0.05` with one `clip_out_of_bounds` event pack; with the near-limit flag
set, the hard-coded `0.5` hazard scale gives final action `0.025`. -/
theorem shield_scenario_clipping :
    (scenarioShield.apply scenarioStateA).2.1 = 5/100
      ∧ Option.map EventPack.reason ((scenarioShield.apply scenarioStateA).2.2)
          = some "clip_out_of_bounds"
      ∧ (scenarioShield.apply scenarioStateB).2.1 = 25/1000 := by
  refine ⟨?_, ?_, ?_⟩
  · norm_num [SafetyShield.apply, SafetyShield.safeOf, SafetyShield.effMin,
      SafetyShield.effMax, scenarioShield, scenarioStateA, max_def, min_def]
  · norm_num [SafetyShield.apply, SafetyShield.safeOf, SafetyShield.eventOf,
      SafetyShield.reasonOf, SafetyShield.effMin, SafetyShield.effMax,
      scenarioShield, scenarioStateA, interventionEps, max_def, min_def,
      abs_eq_max_neg]
  · norm_num [SafetyShield.apply, SafetyShield.safeOf, SafetyShield.effMin,
      SafetyShield.effMax, scenarioShield, scenarioStateB, max_def, min_def]

/-- Claim C8 (confirmed): for every shared state, the Semantics step leaves
both action fields unchanged, the Control step leaves the final action
unchanged, and the Reflex step leaves both action fields unchanged. -/
theorem band_write_ownership (gain bm st mt : ℚ) (s : SharedState) :
    (semanticsStep s).action_proposed = s.action_proposed
      ∧ (semanticsStep s).action_final = s.action_final
      ∧ (controlStep gain s).action_final = s.action_final
      ∧ (reflexStep bm st mt s).action_proposed = s.action_proposed
      ∧ (reflexStep bm st mt s).action_final = s.action_final :=
  ⟨rfl, rfl, rfl, rfl, rfl⟩

/-! Kinematics helper lemmas: the trigonometry of `atan2` and the
forward/inverse round trip. -/

lemma cos_sin_atan2 (y x : ℝ) (h : ¬ (x = 0 ∧ y = 0)) :
    Real.cos (atan2 y x) = x / Real.sqrt (x ^ 2 + y ^ 2)
      ∧ Real.sin (atan2 y x) = y / Real.sqrt (x ^ 2 + y ^ 2) := by
  have hz : (⟨x, y⟩ : ℂ) ≠ 0 := by
    simp only [ne_eq, Complex.ext_iff, Complex.zero_re, Complex.zero_im]
    tauto
  have habs : Complex.abs ⟨x, y⟩ = Real.sqrt (x ^ 2 + y ^ 2) := by
    rw [Complex.abs_apply, Complex.normSq_mk]
    congr 1
    ring
  exact ⟨by rw [atan2, Complex.cos_arg hz, habs],
    by rw [atan2, Complex.sin_arg, habs]⟩

lemma fk_of_angles (L1 L2 alpha beta theta2 c s R : ℝ)
    (hcos2 : Real.cos theta2 = c) (hsin2 : Real.sin theta2 = s)
    (hcosb : Real.cos beta = (L1 + L2 * c) / R)
    (hsinb : Real.sin beta = (L2 * s) / R)
    (hR : R ≠ 0)
    (huv : (L1 + L2 * c) ^ 2 + (L2 * s) ^ 2 = R ^ 2) :
    forward_kinematics L1 L2 (alpha - beta) theta2
      = (R * Real.cos alpha, R * Real.sin alpha) := by
  unfold forward_kinematics
  rw [Real.cos_add (alpha - beta) theta2, Real.sin_add (alpha - beta) theta2,
    hcos2, hsin2, Real.cos_sub, Real.sin_sub, hcosb, hsinb]
  simp only [Prod.mk.injEq]
  constructor
  · field_simp
    linear_combination Real.cos alpha * huv
  · field_simp
    linear_combination Real.sin alpha * huv

lemma fk_ik_angles (L1 L2 xg yg R : ℝ) (hL1 : 0 < L1) (hL2 : 0 < L2)
    (hR : 0 < R) (hlo : |L1 - L2| ≤ R) (hhi : R ≤ L1 + L2)
    (hxy : 0 < xg ^ 2 + yg ^ 2) :
    forward_kinematics L1 L2 (ik_angles xg yg R L1 L2).1
        (ik_angles xg yg R L1 L2).2
      = (R * (xg / Real.sqrt (xg ^ 2 + yg ^ 2)),
         R * (yg / Real.sqrt (xg ^ 2 + yg ^ 2))) := by
  have hden : (0:ℝ) < 2 * L1 * L2 := by positivity
  set c0 : ℝ := (R ^ 2 - L1 ^ 2 - L2 ^ 2) / (2 * L1 * L2) with hc0
  have hsq_lo : (L1 - L2) ^ 2 ≤ R ^ 2 := by
    have h1 : |L1 - L2| ^ 2 ≤ R ^ 2 := pow_le_pow_left₀ (abs_nonneg _) hlo 2
    rwa [sq_abs] at h1
  have hsq_hi : R ^ 2 ≤ (L1 + L2) ^ 2 := pow_le_pow_left₀ hR.le hhi 2
  have hc_lo : -1 ≤ c0 := by
    rw [hc0, le_div_iff₀ hden]
    nlinarith [hsq_lo]
  have hc_hi : c0 ≤ 1 := by
    rw [hc0, div_le_one hden]
    nlinarith [hsq_hi]
  have hclamp : ik_elbow_cos R L1 L2 = c0 := by
    rw [ik_elbow_cos, ← hc0, min_eq_right hc_hi, max_eq_right hc_lo]
  have hcos2 : Real.cos (Real.arccos c0) = c0 := Real.cos_arccos hc_lo hc_hi
  have hsin2 : Real.sin (Real.arccos c0) = Real.sqrt (1 - c0 ^ 2) :=
    Real.sin_arccos c0
  have h1c : (0:ℝ) ≤ 1 - c0 ^ 2 := by nlinarith [hc_lo, hc_hi]
  have hs2 : Real.sqrt (1 - c0 ^ 2) ^ 2 = 1 - c0 ^ 2 := Real.sq_sqrt h1c
  have hc2 : 2 * L1 * L2 * c0 = R ^ 2 - L1 ^ 2 - L2 ^ 2 := by
    rw [hc0]
    field_simp
  have huv : (L1 + L2 * c0) ^ 2 + (L2 * Real.sqrt (1 - c0 ^ 2)) ^ 2
      = R ^ 2 := by
    have hv2 : (L2 * Real.sqrt (1 - c0 ^ 2)) ^ 2 = L2 ^ 2 * (1 - c0 ^ 2) := by
      rw [mul_pow, hs2]
    nlinarith [hv2, hc2]
  have huv0 : ¬ (L1 + L2 * c0 = 0 ∧ L2 * Real.sqrt (1 - c0 ^ 2) = 0) := by
    rintro ⟨h1, h2⟩
    rw [h1, h2] at huv
    nlinarith [huv, hR]
  have hsuv : Real.sqrt ((L1 + L2 * c0) ^ 2
      + (L2 * Real.sqrt (1 - c0 ^ 2)) ^ 2) = R := by
    rw [huv]
    exact Real.sqrt_sq hR.le
  obtain ⟨hcb, hsb⟩ :=
    cos_sin_atan2 (L2 * Real.sqrt (1 - c0 ^ 2)) (L1 + L2 * c0) huv0
  rw [hsuv] at hcb hsb
  have hxy0 : ¬ (xg = 0 ∧ yg = 0) := by
    rintro ⟨h1, h2⟩
    rw [h1, h2] at hxy
    norm_num at hxy
  obtain ⟨hca, hsa⟩ := cos_sin_atan2 yg xg hxy0
  have hik : ik_angles xg yg R L1 L2
      = (atan2 yg xg - atan2 (L2 * Real.sqrt (1 - c0 ^ 2)) (L1 + L2 * c0),
         Real.arccos c0) := by
    simp only [ik_angles]
    rw [hclamp, hcos2, hsin2]
  rw [hik]
  rw [fk_of_angles L1 L2 (atan2 yg xg)
    (atan2 (L2 * Real.sqrt (1 - c0 ^ 2)) (L1 + L2 * c0)) (Real.arccos c0)
    c0 (Real.sqrt (1 - c0 ^ 2)) R hcos2 hsin2 hcb hsb hR.ne' huv]
  rw [hca, hsa]

lemma fk_ik_scaled (L1 L2 x y s R : ℝ) (hL1 : 0 < L1) (hL2 : 0 < L2)
    (hs : 0 < s) (hR : 0 < R) (hlo : |L1 - L2| ≤ R) (hhi : R ≤ L1 + L2)
    (hxy : 0 < x ^ 2 + y ^ 2) :
    forward_kinematics L1 L2 (ik_angles (x * s) (y * s) R L1 L2).1
        (ik_angles (x * s) (y * s) R L1 L2).2
      = (R / Real.sqrt (x ^ 2 + y ^ 2) * x,
         R / Real.sqrt (x ^ 2 + y ^ 2) * y) := by
  have hxy2 : (x * s) ^ 2 + (y * s) ^ 2 = s ^ 2 * (x ^ 2 + y ^ 2) := by ring
  have hxy' : 0 < (x * s) ^ 2 + (y * s) ^ 2 := by
    rw [hxy2]
    exact mul_pos (pow_pos hs 2) hxy
  have hX : Real.sqrt ((x * s) ^ 2 + (y * s) ^ 2)
      = s * Real.sqrt (x ^ 2 + y ^ 2) := by
    rw [hxy2, Real.sqrt_mul (sq_nonneg s), Real.sqrt_sq hs.le]
  have hr : 0 < Real.sqrt (x ^ 2 + y ^ 2) := Real.sqrt_pos.mpr hxy
  rw [fk_ik_angles L1 L2 (x * s) (y * s) R hL1 hL2 hR hlo hhi hxy', hX]
  have hsne : s ≠ 0 := hs.ne'
  have hrne : Real.sqrt (x ^ 2 + y ^ 2) ≠ 0 := hr.ne'
  simp only [Prod.mk.injEq]
  constructor <;> field_simp <;> ring

lemma ik_normalize_far (x y L1 L2 : ℝ)
    (h : L1 + L2 < Real.sqrt (x ^ 2 + y ^ 2)) :
    ik_normalize x y L1 L2
      = (x * ((L1 + L2) / Real.sqrt (x ^ 2 + y ^ 2)),
         y * ((L1 + L2) / Real.sqrt (x ^ 2 + y ^ 2)), L1 + L2) := by
  simp only [ik_normalize]
  rw [if_pos h]

lemma ik_normalize_near_guarded (x y L1 L2 : ℝ)
    (h1 : ¬ (L1 + L2 < Real.sqrt (x ^ 2 + y ^ 2)))
    (h2 : Real.sqrt (x ^ 2 + y ^ 2) < |L1 - L2|)
    (h3 : ikGuardEps < Real.sqrt (x ^ 2 + y ^ 2)) :
    ik_normalize x y L1 L2
      = (x * (|L1 - L2| / Real.sqrt (x ^ 2 + y ^ 2)),
         y * (|L1 - L2| / Real.sqrt (x ^ 2 + y ^ 2)), |L1 - L2|) := by
  simp only [ik_normalize]
  rw [if_neg h1, if_pos h2, if_pos h3]

lemma ik_normalize_near_tiny (x y L1 L2 : ℝ)
    (h1 : ¬ (L1 + L2 < Real.sqrt (x ^ 2 + y ^ 2)))
    (h2 : Real.sqrt (x ^ 2 + y ^ 2) < |L1 - L2|)
    (h3 : ¬ (ikGuardEps < Real.sqrt (x ^ 2 + y ^ 2))) :
    ik_normalize x y L1 L2 = (x * 1, y * 1, |L1 - L2|) := by
  simp only [ik_normalize]
  rw [if_neg h1, if_pos h2, if_neg h3]

lemma ik_normalize_mid (x y L1 L2 : ℝ)
    (h1 : ¬ (L1 + L2 < Real.sqrt (x ^ 2 + y ^ 2)))
    (h2 : ¬ (Real.sqrt (x ^ 2 + y ^ 2) < |L1 - L2|)) :
    ik_normalize x y L1 L2 = (x, y, Real.sqrt (x ^ 2 + y ^ 2)) := by
  simp only [ik_normalize]
  rw [if_neg h1, if_neg h2]

lemma ik_normalize_far_norm (x y L1 L2 : ℝ) (hL1 : 0 < L1) (hL2 : 0 < L2)
    (hfar : L1 + L2 < Real.sqrt (x ^ 2 + y ^ 2)) :
    (ik_normalize x y L1 L2).1 ^ 2 + (ik_normalize x y L1 L2).2.1 ^ 2
        = (L1 + L2) ^ 2
      ∧ (ik_normalize x y L1 L2).2.2 = L1 + L2 := by
  have hr2 : Real.sqrt (x ^ 2 + y ^ 2) ^ 2 = x ^ 2 + y ^ 2 :=
    Real.sq_sqrt (by positivity)
  have hrpos : 0 < Real.sqrt (x ^ 2 + y ^ 2) :=
    lt_trans (by positivity) hfar
  have hrne : Real.sqrt (x ^ 2 + y ^ 2) ≠ 0 := hrpos.ne'
  have hne : x ^ 2 + y ^ 2 ≠ 0 := by
    rw [← hr2]; exact pow_ne_zero 2 hrne
  rw [ik_normalize_far x y L1 L2 hfar]
  refine ⟨?_, rfl⟩
  have step : (x * ((L1 + L2) / Real.sqrt (x ^ 2 + y ^ 2))) ^ 2
      + (y * ((L1 + L2) / Real.sqrt (x ^ 2 + y ^ 2))) ^ 2
      = (x ^ 2 + y ^ 2) * (L1 + L2) ^ 2 / Real.sqrt (x ^ 2 + y ^ 2) ^ 2 := by
    ring
  rw [step, hr2, mul_div_assoc, mul_comm]
  exact div_mul_cancel₀ _ hne

lemma ik_normalize_near_norm (x y L1 L2 : ℝ)
    (h3 : ikGuardEps < Real.sqrt (x ^ 2 + y ^ 2))
    (hnear : Real.sqrt (x ^ 2 + y ^ 2) < |L1 - L2|)
    (h1 : ¬ (L1 + L2 < Real.sqrt (x ^ 2 + y ^ 2))) :
    (ik_normalize x y L1 L2).1 ^ 2 + (ik_normalize x y L1 L2).2.1 ^ 2
        = |L1 - L2| ^ 2
      ∧ (ik_normalize x y L1 L2).2.2 = |L1 - L2| := by
  have hr2 : Real.sqrt (x ^ 2 + y ^ 2) ^ 2 = x ^ 2 + y ^ 2 :=
    Real.sq_sqrt (by positivity)
  have hrpos : 0 < Real.sqrt (x ^ 2 + y ^ 2) := by
    have he : (0:ℝ) < ikGuardEps := by norm_num [ikGuardEps]
    linarith
  have hrne : Real.sqrt (x ^ 2 + y ^ 2) ≠ 0 := hrpos.ne'
  have hne : x ^ 2 + y ^ 2 ≠ 0 := by
    rw [← hr2]; exact pow_ne_zero 2 hrne
  rw [ik_normalize_near_guarded x y L1 L2 h1 hnear h3]
  refine ⟨?_, rfl⟩
  have step : (x * (|L1 - L2| / Real.sqrt (x ^ 2 + y ^ 2))) ^ 2
      + (y * (|L1 - L2| / Real.sqrt (x ^ 2 + y ^ 2))) ^ 2
      = (x ^ 2 + y ^ 2) * |L1 - L2| ^ 2 / Real.sqrt (x ^ 2 + y ^ 2) ^ 2 := by
    ring
  rw [step, hr2, mul_div_assoc, mul_comm]
  exact div_mul_cancel₀ _ hne

/-- Claim C9 (confirmed): for positive link lengths the closed-form IK is
total with finite, bounded output — a goal beyond `L1 + L2` is rescaled so
that the normalized goal lies exactly on the workspace boundary, a goal
below `|L1 - L2|` (past the `1e-6` division guard) is rescaled outward onto
the minimum-reach circle, the clamped inverse-cosine argument always lies in
`[-1, 1]` (so `acos` is applied within its domain), the elbow angle lies in
`[0, π]`, and the shoulder angle is bounded by `2π` in absolute value. -/
theorem ik_edge_cases_safe (x y L1 L2 : ℝ) (hL1 : 0 < L1) (hL2 : 0 < L2) :
    (L1 + L2 < Real.sqrt (x ^ 2 + y ^ 2)
        → (ik_normalize x y L1 L2).1 ^ 2 + (ik_normalize x y L1 L2).2.1 ^ 2
              = (L1 + L2) ^ 2
          ∧ (ik_normalize x y L1 L2).2.2 = L1 + L2)
      ∧ (ikGuardEps < Real.sqrt (x ^ 2 + y ^ 2)
          → Real.sqrt (x ^ 2 + y ^ 2) < |L1 - L2|
          → (ik_normalize x y L1 L2).1 ^ 2 + (ik_normalize x y L1 L2).2.1 ^ 2
                = |L1 - L2| ^ 2
            ∧ (ik_normalize x y L1 L2).2.2 = |L1 - L2|)
      ∧ (-1 ≤ ik_elbow_cos (ik_normalize x y L1 L2).2.2 L1 L2
          ∧ ik_elbow_cos (ik_normalize x y L1 L2).2.2 L1 L2 ≤ 1)
      ∧ (0 ≤ (inverse_kinematics_2dof x y L1 L2).2
          ∧ (inverse_kinematics_2dof x y L1 L2).2 ≤ Real.pi)
      ∧ |(inverse_kinematics_2dof x y L1 L2).1| ≤ 2 * Real.pi := by
  refine ⟨ik_normalize_far_norm x y L1 L2 hL1 hL2, ?_, ?_, ?_, ?_⟩
  · intro h3 hnear
    have habs : |L1 - L2| ≤ L1 + L2 := abs_le.mpr ⟨by linarith, by linarith⟩
    exact ik_normalize_near_norm x y L1 L2 h3 hnear
      (not_lt.mpr (le_of_lt (lt_of_lt_of_le hnear habs)))
  · unfold ik_elbow_cos
    exact ⟨le_max_left _ _, max_le (by norm_num) (min_le_left _ _)⟩
  · have hproj : (inverse_kinematics_2dof x y L1 L2).2
        = Real.arccos (ik_elbow_cos (ik_normalize x y L1 L2).2.2 L1 L2) := rfl
    rw [hproj]
    exact ⟨Real.arccos_nonneg _, Real.arccos_le_pi _⟩
  · have hproj : (inverse_kinematics_2dof x y L1 L2).1
        = atan2 (ik_normalize x y L1 L2).2.1 (ik_normalize x y L1 L2).1
          - atan2
              (L2 * Real.sin (Real.arccos
                (ik_elbow_cos (ik_normalize x y L1 L2).2.2 L1 L2)))
              (L1 + L2 * Real.cos (Real.arccos
                (ik_elbow_cos (ik_normalize x y L1 L2).2.2 L1 L2))) := rfl
    rw [hproj, sub_eq_add_neg]
    refine le_trans (abs_add _ _) ?_
    rw [abs_neg]
    have h1 : |atan2 (ik_normalize x y L1 L2).2.1 (ik_normalize x y L1 L2).1|
        ≤ Real.pi := Complex.abs_arg_le_pi _
    have h2 : |atan2
        (L2 * Real.sin (Real.arccos
          (ik_elbow_cos (ik_normalize x y L1 L2).2.2 L1 L2)))
        (L1 + L2 * Real.cos (Real.arccos
          (ik_elbow_cos (ik_normalize x y L1 L2).2.2 L1 L2)))|
        ≤ Real.pi := Complex.abs_arg_le_pi _
    linarith

/-- Claim C9, witness: link lengths `L1 = L2 = 1` and the unreachable goal
`(4, 0)` at distance `2 × (L1 + L2)` — the normalized reach is the boundary
`L1 + L2` and the elbow angle is in range. -/
theorem ik_edge_cases_safe_witness :
    (0:ℝ) < 1
      ∧ ((ik_normalize 4 0 1 1).2.2 = 1 + 1
          ∧ 0 ≤ (inverse_kinematics_2dof 4 0 1 1).2) := by
  have hs : Real.sqrt ((4:ℝ) ^ 2 + 0 ^ 2) = 4 := by
    rw [show ((4:ℝ) ^ 2 + 0 ^ 2) = 4 ^ 2 by norm_num]
    exact Real.sqrt_sq (by norm_num)
  have h := ik_edge_cases_safe 4 0 1 1 (by norm_num) (by norm_num)
  have hfar : (1:ℝ) + 1 < Real.sqrt ((4:ℝ) ^ 2 + 0 ^ 2) := by
    rw [hs]; norm_num
  exact ⟨by norm_num, (h.1 hfar).2, h.2.2.2.1.1⟩

/-- Claim C10 (confirmed): in exact real arithmetic, for positive link
lengths and a nonzero goal, forward kinematics applied to the joint angles
returned by `inverse_kinematics_2dof` reproduces the goal exactly when its
distance lies in the annulus `[|L1 - L2|, L1 + L2]`, and otherwise yields
the radial projection of the goal onto the nearer annulus boundary. -/
theorem fk_ik_roundtrip (x y L1 L2 : ℝ) (hL1 : 0 < L1) (hL2 : 0 < L2)
    (hxy : 0 < x ^ 2 + y ^ 2) :
    ((|L1 - L2| ≤ Real.sqrt (x ^ 2 + y ^ 2)
        → Real.sqrt (x ^ 2 + y ^ 2) ≤ L1 + L2
        → forward_kinematics L1 L2 (inverse_kinematics_2dof x y L1 L2).1
            (inverse_kinematics_2dof x y L1 L2).2 = (x, y)))
      ∧ (L1 + L2 < Real.sqrt (x ^ 2 + y ^ 2)
          → forward_kinematics L1 L2 (inverse_kinematics_2dof x y L1 L2).1
              (inverse_kinematics_2dof x y L1 L2).2
            = ((L1 + L2) / Real.sqrt (x ^ 2 + y ^ 2) * x,
               (L1 + L2) / Real.sqrt (x ^ 2 + y ^ 2) * y))
      ∧ (Real.sqrt (x ^ 2 + y ^ 2) < |L1 - L2|
          → forward_kinematics L1 L2 (inverse_kinematics_2dof x y L1 L2).1
              (inverse_kinematics_2dof x y L1 L2).2
            = (|L1 - L2| / Real.sqrt (x ^ 2 + y ^ 2) * x,
               |L1 - L2| / Real.sqrt (x ^ 2 + y ^ 2) * y)) := by
  have hr : 0 < Real.sqrt (x ^ 2 + y ^ 2) := Real.sqrt_pos.mpr hxy
  have habs : |L1 - L2| ≤ L1 + L2 :=
    abs_le.mpr ⟨by linarith, by linarith⟩
  refine ⟨?_, ?_, ?_⟩
  · intro hlo hhi
    have h1 : ¬ (L1 + L2 < Real.sqrt (x ^ 2 + y ^ 2)) := not_lt.mpr hhi
    have h2 : ¬ (Real.sqrt (x ^ 2 + y ^ 2) < |L1 - L2|) := not_lt.mpr hlo
    simp only [inverse_kinematics_2dof]
    rw [ik_normalize_mid x y L1 L2 h1 h2]
    rw [fk_ik_angles L1 L2 x y (Real.sqrt (x ^ 2 + y ^ 2)) hL1 hL2 hr
      hlo hhi hxy]
    rw [Prod.mk.injEq]
    constructor <;> field_simp
  · intro hfar
    simp only [inverse_kinematics_2dof]
    rw [ik_normalize_far x y L1 L2 hfar]
    have hs : 0 < (L1 + L2) / Real.sqrt (x ^ 2 + y ^ 2) := by positivity
    exact fk_ik_scaled L1 L2 x y ((L1 + L2) / Real.sqrt (x ^ 2 + y ^ 2))
      (L1 + L2) hL1 hL2 hs (by positivity) habs le_rfl hxy
  · intro hnear
    have h1 : ¬ (L1 + L2 < Real.sqrt (x ^ 2 + y ^ 2)) :=
      not_lt.mpr (le_of_lt (lt_of_lt_of_le hnear habs))
    have hRpos : 0 < |L1 - L2| := lt_trans hr hnear
    by_cases h3 : ikGuardEps < Real.sqrt (x ^ 2 + y ^ 2)
    · simp only [inverse_kinematics_2dof]
      rw [ik_normalize_near_guarded x y L1 L2 h1 hnear h3]
      have hs : 0 < |L1 - L2| / Real.sqrt (x ^ 2 + y ^ 2) := by positivity
      exact fk_ik_scaled L1 L2 x y (|L1 - L2| / Real.sqrt (x ^ 2 + y ^ 2))
        (|L1 - L2|) hL1 hL2 hs hRpos le_rfl habs hxy
    · simp only [inverse_kinematics_2dof]
      rw [ik_normalize_near_tiny x y L1 L2 h1 hnear h3]
      exact fk_ik_scaled L1 L2 x y 1 (|L1 - L2|) hL1 hL2 one_pos hRpos
        le_rfl habs hxy

/-- Claim C10, witness: links `L1 = L2 = 1` and the in-annulus goal
`(1, 0)` — the forward/inverse round trip reproduces the goal exactly. -/
theorem fk_ik_roundtrip_witness :
    ((0:ℝ) < 1 ^ 2 + 0 ^ 2)
      ∧ forward_kinematics 1 1 (inverse_kinematics_2dof 1 0 1 1).1
          (inverse_kinematics_2dof 1 0 1 1).2 = (1, 0) := by
  have hs : Real.sqrt ((1:ℝ) ^ 2 + 0 ^ 2) = 1 := by
    rw [show ((1:ℝ) ^ 2 + 0 ^ 2) = 1 by norm_num]
    exact Real.sqrt_one
  have h := fk_ik_roundtrip 1 0 1 1 (by norm_num) (by norm_num) (by norm_num)
  refine ⟨by norm_num, h.1 ?_ ?_⟩
  · rw [hs]; norm_num
  · rw [hs]; norm_num

end HTI
